import Mathlib

/-!
Verification of the Gate402 core engine request pipeline.

This file gives a shallow embedding, in Lean, of the parts of the
Gate402 reverse-proxy code base that the specification talks about:

* `src/src/utils/subdomain.util.ts`  — `extractSubdomain`
* `src/src/services/gateway.service.ts` (final revision) —
  `resolveGateway`, `updateGateway`, `deleteGateway` together with the
  redis cache and the durable gateway store, modelled as explicit state
* `src/src/services/x402.service.ts` — `verifyPayment` and the integer
  amount computation of `buildPaymentRequirements`
* `src/src/services/proxy.service.ts` — `handleRequest`, the request
  pipeline orchestrator (resolve → config/SSRF checks → requirements →
  challenge/verify → settle → forward)

External collaborators (the facilitator, the `@x402/core` library, the
JSON parser) are modelled as explicit oracle parameters; repository code
is translated statement by statement.  JavaScript floating point
arithmetic in the amount computation is modelled exactly, as IEEE-754
binary64 round-to-nearest-even over the rationals.
-/

namespace Gate402

/-! ## Basic string machinery (JavaScript string primitives)

JavaScript `String.prototype.split` with a one-character separator,
`includes`, and `startsWith`, modelled over the character list of the
Lean string so that everything reduces in the kernel. -/

/-- Split a character list at every occurrence of `sep`, keeping empty
segments, exactly like JavaScript `split` with a single-char separator. -/
def splitChars (sep : Char) : List Char → List (List Char)
  | [] => [[]]
  | c :: rest =>
    let r := splitChars sep rest
    if c = sep then [] :: r
    else
      match r with
      | [] => [[c]]
      | h :: t => (c :: h) :: t

/-- JavaScript `s.split(sep)` for a one-character separator. -/
def jsSplit (s : String) (sep : Char) : List String :=
  (splitChars sep s.data).map (fun l => String.mk l)

/-- All suffixes of a list (including the empty one). -/
def listSuffixes : List Char → List (List Char)
  | [] => [[]]
  | c :: r => (c :: r) :: listSuffixes r

/-- JavaScript `s.includes(pat)`. -/
def strContains (s pat : String) : Bool :=
  (listSuffixes s.data).any (fun l => pat.data.isPrefixOf l)

/-- JavaScript `s.startsWith(pat)`. -/
def strStartsWith (s pat : String) : Bool :=
  pat.data.isPrefixOf s.data

/-- Drop the first `n` characters of a string. -/
def strDrop (s : String) (n : Nat) : String :=
  String.mk (s.data.drop n)

/-- JavaScript truthiness of an optional string: `undefined`/`null` and
the empty string are falsy. -/
def jsTruthyStr : Option String → Bool
  | none => false
  | some s => s ≠ ""

/-- JavaScript `a || b` on optional strings: `b` when `a` is falsy. -/
def jsOrOpt (a b : Option String) : Option String :=
  if jsTruthyStr a then a else b

/-- JavaScript `a || d` where `a` is an optional string and `d` a string
default (used for `gateway.paymentNetwork || 'eip155:84532'`). -/
def jsOrStr (a : Option String) (d : String) : String :=
  match a with
  | some s => if s = "" then d else s
  | none => d

/-! ## A small JSON value model and `JSON.stringify` -/

/-- JSON values as produced by the pipeline's response bodies. -/
inductive Json where
  | null
  | bool (b : Bool)
  | num (n : Int)
  | str (s : String)
  | obj (fields : List (String × Json))

/-- Escape one character for a JSON string literal (the cases the
pipeline's concrete strings can hit). -/
def escapeJsonChar (c : Char) : List Char :=
  if c = Char.ofNat 34 then [Char.ofNat 92, Char.ofNat 34]
  else if c = Char.ofNat 92 then [Char.ofNat 92, Char.ofNat 92]
  else [c]

/-- JSON string literal: quote and escape. -/
def jsonQuote (s : String) : String :=
  String.mk ([Char.ofNat 34] ++ s.data.flatMap escapeJsonChar ++ [Char.ofNat 34])

mutual

/-- Serialization as `JSON.stringify` on the JSON model. -/
def jsonStringify : Json → String
  | .null => "null"
  | .bool b => if b then "true" else "false"
  | .num n => toString n
  | .str s => jsonQuote s
  | .obj fs => "\x7b" ++ jsonFields fs ++ "\x7d"

/-- Serialize the field list of a JSON object. -/
def jsonFields : List (String × Json) → String
  | [] => ""
  | [(k, v)] => jsonQuote k ++ ":" ++ jsonStringify v
  | (k, v) :: rest => jsonQuote k ++ ":" ++ jsonStringify v ++ "," ++ jsonFields rest

end

/-! ## UTF-8 and base64 (Node `Buffer.from(s).toString('base64')`) -/

/-- UTF-8 encoding of a single code point. -/
def charUtf8 (c : Char) : List Nat :=
  let n := c.toNat
  if n < 128 then [n]
  else if n < 2048 then [192 + n / 64, 128 + n % 64]
  else if n < 65536 then [224 + n / 4096, 128 + (n / 64) % 64, 128 + n % 64]
  else [240 + n / 262144, 128 + (n / 4096) % 64, 128 + (n / 64) % 64, 128 + n % 64]

/-- UTF-8 bytes of a string. -/
def utf8Bytes (s : String) : List Nat :=
  s.data.flatMap charUtf8

/-- The base64 alphabet. -/
def b64Alphabet : List Char :=
  "ABCDEFGHIJKLMNOPQRSTUVWXYZabcdefghijklmnopqrstuvwxyz0123456789+/".data

/-- The base64 digit for a 6-bit value. -/
def b64Char (n : Nat) : Char :=
  b64Alphabet.getD n (Char.ofNat 65)

/-- Base64-encode a byte list, with padding. -/
def b64Bytes : List Nat → List Char
  | [] => []
  | [a] =>
    [b64Char (a / 4), b64Char ((a % 4) * 16), Char.ofNat 61, Char.ofNat 61]
  | [a, b] =>
    [b64Char (a / 4), b64Char ((a % 4) * 16 + b / 16), b64Char ((b % 16) * 4), Char.ofNat 61]
  | a :: b :: c :: rest =>
    [b64Char (a / 4), b64Char ((a % 4) * 16 + b / 16),
     b64Char ((b % 16) * 4 + c / 64), b64Char (c % 64)] ++ b64Bytes rest

/-- Node `Buffer.from(s).toString('base64')`. -/
def base64encode (s : String) : String :=
  String.mk (b64Bytes (utf8Bytes s))

/-! ## Data model: Gateway records

Translated from the Prisma `Gateway` model as the services consume it.
Nullable columns are `Option String`; `status` is one of `active`,
`paused`, `deleted`. -/

/-- A tenant's gateway record. -/
structure Gateway where
  id : String
  subdomain : String
  customDomain : Option String
  originUrl : String
  evmAddress : Option String
  secretToken : String
  defaultPricePerRequest : String
  paymentNetwork : Option String
  status : String
deriving DecidableEq

/-! ## `extractSubdomain` (src/src/utils/subdomain.util.ts) -/

/-- Translation of `extractSubdomain`: split the host on dots; a host
containing `localhost` yields the first label when there are at least
two labels and the last starts with `localhost`; otherwise any host of
more than two labels yields its first label; otherwise `null`. -/
def extractSubdomain (host : String) : Option String :=
  let parts := jsSplit host '.'
  if strContains host "localhost" then
    if 2 ≤ parts.length then
      if strStartsWith (parts.getLastD "") "localhost" then some (parts.headD "")
      else none
    else none
  else
    if 2 < parts.length then some (parts.headD "")
    else none

/-! ## GatewayService with redis cache (final revision in the sources)

The durable store is a list of `Gateway` rows (`findUnique` on a unique
column is `List.find?`), and the redis cache is an association list from
string keys to cached gateway snapshots (`JSON.parse ∘ JSON.stringify`
round-trips a record, so the cached value is modelled as the record
itself).  `setex`/`del` are wholesale replacement/removal of a key. -/

/-- Combined state of the durable store and the redis cache. -/
structure SysState where
  db : List Gateway
  cache : List (String × Gateway)
deriving DecidableEq

/-- Model of redis `get`. -/
def cacheGet (c : List (String × Gateway)) (k : String) : Option Gateway :=
  (c.find? (fun p => p.1 = k)).map (fun p => p.2)

/-- Model of redis `setex` (replacement; the TTL itself is not part of
the value model). -/
def cacheSet (c : List (String × Gateway)) (k : String) (g : Gateway) :
    List (String × Gateway) :=
  (k, g) :: c.filter (fun p => p.1 ≠ k)

/-- Model of redis `del`. -/
def cacheDel (c : List (String × Gateway)) (k : String) : List (String × Gateway) :=
  c.filter (fun p => p.1 ≠ k)

/-- Translation of `GatewayService.resolveGateway`: try the cache under
the full hostname key; on a miss derive the subdomain, query the store
by subdomain then by custom domain, and cache-and-return only an
`active` gateway. Returns the result together with the new state. -/
def resolveGateway (st : SysState) (host : String) : Option Gateway × SysState :=
  match cacheGet st.cache ("gateway:" ++ host) with
  | some g => (some g, st)
  | none =>
    let sub := extractSubdomain host
    let g1 : Option Gateway :=
      match sub with
      | some s => st.db.find? (fun g => g.subdomain = s)
      | none => none
    let g2 : Option Gateway :=
      match g1 with
      | some g => some g
      | none => st.db.find? (fun g => g.customDomain = some host)
    match g2 with
    | some g =>
      if g.status = "active" then
        (some g, { st with cache := cacheSet st.cache ("gateway:" ++ host) g })
      else (none, st)
    | none => (none, st)

/-- A partial update object for `updateGateway` (Prisma `data`): a field
that is `none` is absent from the update. -/
structure GatewayUpdate where
  originUrl : Option String := none
  defaultPricePerRequest : Option String := none
  status : Option String := none
  customDomain : Option (Option String) := none
  paymentNetwork : Option String := none
  evmAddress : Option String := none

/-- Apply a partial update to a row. -/
def applyUpdate (g : Gateway) (u : GatewayUpdate) : Gateway :=
  { g with
    originUrl := u.originUrl.getD g.originUrl
    defaultPricePerRequest := u.defaultPricePerRequest.getD g.defaultPricePerRequest
    status := u.status.getD g.status
    customDomain := u.customDomain.getD g.customDomain
    paymentNetwork := match u.paymentNetwork with | some p => some p | none => g.paymentNetwork
    evmAddress := match u.evmAddress with | some a => some a | none => g.evmAddress }

/-- Model of `prisma.gateway.update`: rewrite the row with the given id, failing
(`none`, like the thrown Prisma error) when no row has that id. -/
def dbUpdate (db : List Gateway) (id : String) (u : GatewayUpdate) :
    Option (Gateway × List Gateway) :=
  match db.find? (fun g => g.id = id) with
  | none => none
  | some g =>
    let g2 := applyUpdate g u
    some (g2, db.map (fun x => if x.id = id then g2 else x))

/-- The cache invalidation performed after `updateGateway` and
`deleteGateway`: delete `gateway:<subdomain>` and, when the custom
domain is truthy, `gateway:<customDomain>`. -/
def invalidateKeys (c : List (String × Gateway)) (g : Gateway) :
    List (String × Gateway) :=
  let c1 := cacheDel c ("gateway:" ++ g.subdomain)
  match g.customDomain with
  | some cd => if cd = "" then c1 else cacheDel c1 ("gateway:" ++ cd)
  | none => c1

/-- Translation of `GatewayService.updateGateway`: update the row, then
purge the cache keys named by the updated row's subdomain and custom
domain. -/
def updateGateway (st : SysState) (id : String) (u : GatewayUpdate) :
    Option (Gateway × SysState) :=
  (dbUpdate st.db id u).map (fun p =>
    (p.1, { db := p.2, cache := invalidateKeys st.cache p.1 }))

/-- Translation of `GatewayService.deleteGateway`: soft-delete (set
`status` to `deleted`) and purge the same cache keys. -/
def deleteGateway (st : SysState) (id : String) : Option (Gateway × SysState) :=
  updateGateway st id { status := some "deleted" }

/-! ## X402Service (src/src/services/x402.service.ts)

Thrown JavaScript values are either `Error` objects carrying a message
(`instanceof Error`) or arbitrary other values carrying their
`String(...)` form. -/

/-- A thrown JavaScript value. -/
inductive Exn where
  | errObj (message : String)
  | other (str : String)
deriving DecidableEq

/-- The reason string the `verifyPayment` catch block produces:
`error instanceof Error ? error.message : 'Payment verification failed'`. -/
def exnVerifyReason : Exn → String
  | .errObj m => m
  | .other _ => "Payment verification failed"

/-- The detail string the settlement catch block in the pipeline puts in
the 502 body: `error instanceof Error ? error.message : String(error)`. -/
def exnSettleDetail : Exn → String
  | .errObj m => m
  | .other s => s

/-- The facilitator's verification answer (`resourceServer.verifyPayment`). -/
structure FacVerifyResult where
  isValid : Bool
  invalidReason : Option String
deriving DecidableEq

/-- The value `X402Service.verifyPayment` resolves with. -/
structure VerifyRes where
  isValid : Bool
  invalidReason : Option String
  paymentPayload : Option Json

/-- The body of `verifyPayment` before its catch: decode the header
(`JSON.parse` of the base64-decoded bytes, modelled by the `decoded`
oracle) and ask the facilitator; either step may throw, aborting the
body with that error. -/
def verifyPaymentBody (decoded : Except Exn Json)
    (fac : Json → Except Exn FacVerifyResult) : Except Exn VerifyRes :=
  match decoded with
  | .error e => .error e
  | .ok payload =>
    match fac payload with
    | .error e => .error e
    | .ok vr =>
      .ok { isValid := vr.isValid
            invalidReason := vr.invalidReason
            paymentPayload := if vr.isValid then some payload else none }

/-- Translation of `X402Service.verifyPayment`: the whole body runs
under a try/catch whose handler returns `isValid=false` with the thrown
error's message (or a fixed default for non-`Error` values). -/
def verifyPayment (decoded : Except Exn Json)
    (fac : Json → Except Exn FacVerifyResult) : Except Exn VerifyRes :=
  match verifyPaymentBody decoded fac with
  | .ok r => .ok r
  | .error e =>
    .ok { isValid := false, invalidReason := some (exnVerifyReason e),
          paymentPayload := none }

/-- The facilitator's settlement answer (`resourceServer.settlePayment`
resolves with this; `X402Service.settlePayment` passes it through and
re-throws any error). -/
structure SettleResponse where
  success : Bool
  transaction : String
  network : String
  errorReason : Option String
deriving DecidableEq

/-- The JSON form of a settlement result, as serialized into the
`PAYMENT-RESPONSE` header and the 502 `details` field. -/
def settleResultJson (s : SettleResponse) : Json :=
  Json.obj [("success", Json.bool s.success),
            ("transaction", Json.str s.transaction),
            ("network", Json.str s.network),
            ("errorReason", match s.errorReason with
                            | some r => Json.str r
                            | none => Json.null)]

/-! ### The amount computation of `buildPaymentRequirements`

The source computes
`BigInt(Math.floor(parseFloat(price) * Math.pow(10, decimals)))`.
`parseFloat` of a decimal numeral and the multiplication are IEEE-754
binary64 operations; we model the binary64 rounding function exactly,
over integer fractions so that everything reduces in the kernel: round
to nearest, ties to even, with the full mantissa width of 53 bits.
Overflow to infinity and subnormal underflow are outside the range these
computations can hit and are not modelled (the exponent search carries
fuel far beyond the binary64 exponent range). -/

/-- A fraction `num / den` (intended: `den > 0`). -/
structure Frac where
  num : ℤ
  den : ℤ
deriving DecidableEq

/-- The rational value of a fraction. -/
def fracVal (f : Frac) : ℚ :=
  (f.num : ℚ) / (f.den : ℚ)

/-- Exponent steps for the binary-search logarithm, largest first (the
repeated 256 entries strip the high bits of very large inputs; the
descending tail is an exact binary search below `2^256`). -/
def log2Steps : List Nat :=
  [256, 256, 256, 256, 256, 256, 256, 256, 128, 64, 32, 16, 8, 4, 2, 1]

/-- Floor of `log2 n` for a positive natural below `2^2176`, by
binary search over the fixed step list. -/
def natLog2 (n : Nat) : Nat :=
  (log2Steps.foldl
    (fun p s => if 2 ^ s ≤ p.1 then (p.1 / 2 ^ s, p.2 + s) else p)
    ((n, 0) : Nat × Nat)).2

/-- The constant `2^1200`, as a product of small-exponent powers so that
it reduces in the kernel. -/
def pow2_1200 : ℤ :=
  ((2 : ℤ) ^ 200) ^ 6

/-- Floor of `log2 (a / b)` for positive `a b`, exact whenever
`a / b > 2^(-1200)` and `a * 2^1200 / b < 2^2176` — far beyond the
binary64 exponent range. -/
def intLog2 (a b : ℤ) : ℤ :=
  (natLog2 ((a * pow2_1200 / b).toNat) : ℤ) - 1200

/-- Round `a / b` (with `b > 0`) to an integer, round-half-to-even. -/
def rne (a b : ℤ) : ℤ :=
  let q := a / b
  let r := a % b
  if 2 * r < b then q
  else if b < 2 * r then q + 1
  else if q % 2 = 0 then q else q + 1

/-- IEEE-754 binary64 rounding of a nonnegative fraction, returned as a
dyadic pair `(mantissa, exponent)` with value `mantissa * 2^exponent`:
scale so the mantissa lies in `[2^52, 2^53)` and round to nearest even. -/
def fl64 (f : Frac) : ℤ × ℤ :=
  if f.num = 0 then (0, 0)
  else
    let e := intLog2 f.num f.den - 52
    if 0 ≤ e then (rne f.num (f.den * 2 ^ e.toNat), e)
    else (rne (f.num * 2 ^ (-e).toNat) f.den, e)

/-- The rational value of a dyadic pair. -/
def dyVal (d : ℤ × ℤ) : ℚ :=
  (d.1 : ℚ) * 2 ^ d.2

/-- A dyadic pair as a fraction. -/
def dyToFrac (d : ℤ × ℤ) : Frac :=
  if 0 ≤ d.2 then ⟨d.1 * 2 ^ d.2.toNat, 1⟩ else ⟨d.1, 2 ^ (-d.2).toNat⟩

/-- Exact product of fractions. -/
def fracMul (f g : Frac) : Frac :=
  ⟨f.num * g.num, f.den * g.den⟩

/-- Floor (`Math.floor`) of a dyadic pair (exact on binary64 values). -/
def floorDy (d : ℤ × ℤ) : ℤ :=
  if 0 ≤ d.2 then d.1 * 2 ^ d.2.toNat else d.1 / 2 ^ (-d.2).toNat

/-- Translation of the integer amount computed by
`X402Service.buildPaymentRequirements` for the exact decimal price
`a / b` and a token with `d` decimals:
`BigInt(Math.floor(parseFloat(price) * Math.pow(10, decimals)))`, where
`parseFloat` rounds the decimal to binary64, `Math.pow(10, d)` is the
binary64 rounding of `10^d`, `*` is binary64 multiplication (round the
exact product), and `Math.floor` is exact. -/
def buildRequirementAmount (a : ℤ) (b : ℕ) (d : ℕ) : ℤ :=
  let p := fl64 ⟨a, (b : ℤ)⟩
  let w := fl64 ⟨(10 : ℤ) ^ d, 1⟩
  floorDy (fl64 (fracMul (dyToFrac p) (dyToFrac w)))

/-- The amount the specification asserts: the exact rational
`floor(price × 10^decimals)`. -/
def specAmount (p : ℚ) (d : ℕ) : ℤ :=
  ⌊p * (10 : ℚ) ^ d⌋

/-! ## The request pipeline (src/src/services/proxy.service.ts)

`ProxyService.handleRequest` is translated statement by statement.  The
express request carries the headers consulted by the pipeline; external
effects that cannot influence control flow (console logging, analytics
writes) are not part of the observable outcome; the calls that can —
verification, settlement, and the proxy hand-off — are recorded as
events. -/

/-- The inbound express request, restricted to the selectors the
pipeline reads. -/
structure ReqT where
  rawHost : String
  protocol : String
  originalUrl : String
  method : String
  path : String
  ip : String
  headers : List (String × String)

/-- Header lookup `req.headers[name]` (express lower-cases header names
on receipt; the model stores them already lower-cased). -/
def getHeader (r : ReqT) (name : String) : Option String :=
  (r.headers.find? (fun p => p.1 = name)).map (fun p => p.2)

/-- The payment header selector:
`req.headers['payment-signature'] || req.headers['x-payment']`. -/
def effPaymentHeader (r : ReqT) : Option String :=
  jsOrOpt (getHeader r "payment-signature") (getHeader r "x-payment")

/-- A response body: `res.send` text or `res.json` JSON. -/
inductive Body where
  | text (s : String)
  | json (j : Json)

/-- A direct (non-proxied) response assembled by the pipeline. -/
structure Resp where
  status : Nat
  headers : List (String × String)
  body : Body

/-- The pipeline outcome: a direct response, a hand-off to the proxy
forwarder aimed at `target` with the headers already set on `res`, or an
exception escaping `handleRequest` uncaught. -/
inductive Outcome where
  | direct (r : Resp)
  | proxied (target : String) (headersSet : List (String × String))
  | thrown (e : Exn)

/-- Protocol-phase events of one request. -/
inductive Ev where
  | verifyCalled
  | settleCalled
  | forwardCalled
deriving DecidableEq

/-- Host part of a parsed absolute http(s) URL (the model of
`new URL(u).hostname` sufficient for the origins at issue): the
authority runs to the first `/`, `?` or `#`; userinfo before `@` and a
port after `:` are dropped. `none` models the constructor throwing. -/
def parseUrlHost (u : String) : Option String :=
  let rest :=
    if strStartsWith u "http://" then some (strDrop u 7)
    else if strStartsWith u "https://" then some (strDrop u 8)
    else none
  match rest with
  | none => none
  | some r =>
    let authority := ((jsSplit ((jsSplit ((jsSplit r '/').headD "") '?').headD "") '#').headD "")
    let hostPort := (jsSplit authority '@').getLastD ""
    let hostname := (jsSplit hostPort ':').headD ""
    if hostname = "" then none else some hostname

/-- The pipeline's SSRF block list:
`['localhost', '127.0.0.1', '0.0.0.0', '::1']`. -/
def blockedHosts : List String :=
  ["localhost", "127.0.0.1", "0.0.0.0", "::1"]

/-- The literal prefixes matched by the private-range regex
`/^(10|172\.(1[6-9]|2[0-9]|3[0-1])|192\.168)\./`. -/
def privateRangePrefixes : List String :=
  ["10.", "192.168.",
   "172.16.", "172.17.", "172.18.", "172.19.", "172.20.", "172.21.",
   "172.22.", "172.23.", "172.24.", "172.25.", "172.26.", "172.27.",
   "172.28.", "172.29.", "172.30.", "172.31."]

/-- The SSRF rejection test applied to the origin hostname in
production: membership in `blockedHosts` or a private-range prefix. -/
def ssrfBlocked (hostname : String) : Bool :=
  blockedHosts.contains hostname ||
    privateRangePrefixes.any (fun p => strStartsWith hostname p)

/-- The external collaborators of one request, as oracles: the
`@x402/core` resource server (requirement building and the
payment-required structure) and the facilitator (verify/settle). -/
structure PipelineEnv where
  production : Bool
  buildReq : Except Exn Json
  mkPaymentRequired : Json → String → String → String → Json
  decodePayment : String → Except Exn Json
  facVerify : Json → Except Exn FacVerifyResult
  facSettle : Json → Except Exn SettleResponse

/-- Steps 5–9 of `handleRequest` (from the payment-header check on),
given the resolved gateway and the built requirements. -/
def phasePayment (env : PipelineEnv) (req : ReqT) (gateway : Gateway)
    (requirements : Json) : Outcome × List Ev :=
  let ph := effPaymentHeader req
  if jsTruthyStr ph = false then
    let url := req.protocol ++ "://" ++ req.rawHost ++ req.originalUrl
    let paymentRequired :=
      env.mkPaymentRequired requirements url gateway.subdomain "application/json"
    let requirementsHeader := base64encode (jsonStringify paymentRequired)
    (.direct
      { status := 402
        headers := [("PAYMENT-REQUIRED", requirementsHeader)]
        body := .json (Json.obj
          [("error", .str "Payment Required"),
           ("message", .str "This endpoint requires payment"),
           ("details", Json.obj
             [("price", .str gateway.defaultPricePerRequest),
              ("network", .str (jsOrStr gateway.paymentNetwork "eip155:84532")),
              ("recipient", .str (gateway.evmAddress.getD ""))])]) }, [])
  else
    match verifyPayment (env.decodePayment (ph.getD "")) env.facVerify with
    | .error e => (.thrown e, [.verifyCalled])
    | .ok vres =>
      if vres.isValid = false then
        (.direct
          { status := 402
            headers := []
            body := .json (Json.obj
              [("error", .str "Invalid Payment"),
               ("reason", match vres.invalidReason with
                          | some r => Json.str r
                          | none => Json.null)]) }, [.verifyCalled])
      else
        match env.facSettle (vres.paymentPayload.getD Json.null) with
        | .error e =>
          (.direct
            { status := 502
              headers := []
              body := .json (Json.obj
                [("error", .str "Payment settlement failed"),
                 ("details", .str (exnSettleDetail e))]) },
           [.verifyCalled, .settleCalled])
        | .ok settleResult =>
          if settleResult.success = false then
            (.direct
              { status := 502
                headers := []
                body := .json (Json.obj
                  [("error", .str "Payment settlement failed"),
                   ("details", settleResultJson settleResult)]) },
             [.verifyCalled, .settleCalled])
          else
            let settlementHeader :=
              base64encode (jsonStringify (settleResultJson settleResult))
            (.proxied gateway.originUrl [("PAYMENT-RESPONSE", settlementHeader)],
             [.verifyCalled, .settleCalled, .forwardCalled])

/-- The configuration check of step 2:
`!gateway.originUrl || !gateway.evmAddress` (JavaScript truthiness: the
empty string and null are falsy). -/
def configInvalid (gateway : Gateway) : Bool :=
  !(jsTruthyStr (some gateway.originUrl)) || !(jsTruthyStr gateway.evmAddress)

/-- Steps 2–9 of `handleRequest`: configuration validation, the SSRF
guard, requirement building, then the payment phase. -/
def phaseAfterResolve (env : PipelineEnv) (req : ReqT) (gateway : Gateway) :
    Outcome × List Ev :=
  if configInvalid gateway then
    (.direct { status := 500, headers := []
               body := .json (Json.obj [("error", .str "Gateway misconfiguration")]) }, [])
  else
    match parseUrlHost gateway.originUrl with
    | none =>
      (.direct { status := 500, headers := []
                 body := .json (Json.obj [("error", .str "Invalid gateway origin URL")]) }, [])
    | some hostname =>
      if env.production && ssrfBlocked hostname then
        (.direct { status := 403, headers := []
                   body := .json (Json.obj [("error", .str "Invalid origin URL")]) }, [])
      else
        match env.buildReq with
        | .error _ =>
          (.direct { status := 500, headers := []
                     body := .json (Json.obj [("error", .str "Server configuration error")]) }, [])
        | .ok requirements => phasePayment env req gateway requirements

/-- Strip the port from the host header: `rawHostname.split(':')[0]`. -/
def stripPort (h : String) : String :=
  (jsSplit h ':').headD ""

/-- Translation of `ProxyService.handleRequest`: strip the port from the
host header, resolve the gateway (404 when absent), then run the
remaining phases. -/
def handleRequest (st : SysState) (env : PipelineEnv) (req : ReqT) :
    Outcome × List Ev :=
  let hostname := stripPort req.rawHost
  match (resolveGateway st hostname).1 with
  | none => (.direct { status := 404, headers := [], body := .text "Gateway not found" }, [])
  | some gateway => phaseAfterResolve env req gateway

/-- Top-level field names of a JSON object body (empty for anything
else); used to compare the shapes of response bodies. -/
def bodyTopKeys : Body → List String
  | .json (Json.obj fs) => fs.map Prod.fst
  | _ => []

/-! ## Concrete fixtures used by the claim evaluations -/

/-- An active gateway reachable through the subdomain `api`. -/
def subGw : Gateway :=
  { id := "gw-sub", subdomain := "api", customDomain := none,
    originUrl := "http://one.example.net", evmAddress := some "0x1",
    secretToken := "s1", defaultPricePerRequest := "0.1",
    paymentNetwork := some "eip155:84532", status := "active" }

/-- An active gateway registered under the three-label custom domain
`api.weatherpro.com`, whose first label collides with `subGw`. -/
def customGw : Gateway :=
  { id := "gw-custom", subdomain := "weatherpro",
    customDomain := some "api.weatherpro.com",
    originUrl := "http://two.example.net", evmAddress := some "0x2",
    secretToken := "s2", defaultPricePerRequest := "0.2",
    paymentNetwork := some "eip155:84532", status := "active" }

/-- Store holding both colliding gateways, with an empty cache. -/
def shadowState : SysState := { db := [subGw, customGw], cache := [] }

/-- An active, fully configured gateway under subdomain `client1`. -/
def cbGw : Gateway :=
  { id := "g1", subdomain := "client1", customDomain := none,
    originUrl := "http://origin.example.com", evmAddress := some "0xabc",
    secretToken := "sek", defaultPricePerRequest := "0.1",
    paymentNetwork := some "eip155:84532", status := "active" }

/-- Initial state: `cbGw` in the store, empty cache. -/
def cbState0 : SysState := { db := [cbGw], cache := [] }

/-- State after one proxy resolution of `client1.gate402.io` (which
caches the gateway under the full-host key). -/
def cbState1 : SysState := (resolveGateway cbState0 "client1.gate402.io").2

/-- State after tenant management then pauses the gateway (the update
purges the `gateway:client1` and custom-domain keys). -/
def cbState2 : SysState :=
  ((updateGateway cbState1 "g1" { status := some "paused" }).map Prod.snd).getD cbState1

/-- State after tenant management instead changes the origin URL. -/
def cb5State2 : SysState :=
  ((updateGateway cbState1 "g1"
      { originUrl := some "http://new-origin.example.com" }).map Prod.snd).getD cbState1

/-- The gateway used by the pipeline fixtures. -/
def wGw : Gateway :=
  { id := "gw1", subdomain := "client1", customDomain := none,
    originUrl := "http://origin.example.com", evmAddress := some "0xabc",
    secretToken := "sek", defaultPricePerRequest := "0.1",
    paymentNetwork := some "eip155:84532", status := "active" }

/-- Store for the pipeline fixtures. -/
def wSt : SysState := { db := [wGw], cache := [] }

/-- Environment where verification succeeds but the facilitator rejects
settlement (`success = false`). -/
def settleRejectEnv : PipelineEnv :=
  { production := false
    buildReq := Except.ok Json.null
    mkPaymentRequired := fun _ _ _ _ => Json.null
    decodePayment := fun _ => Except.ok Json.null
    facVerify := fun _ => Except.ok ⟨true, none⟩
    facSettle := fun _ => Except.ok ⟨false, "", "", some "rejected"⟩ }

/-- A request carrying a payment header. -/
def wReqPay : ReqT :=
  { rawHost := "client1.gate402.io", protocol := "http", originalUrl := "/data",
    method := "GET", path := "/data", ip := "1.2.3.4",
    headers := [("payment-signature", "sig")] }

/-- The same request without any payment header. -/
def wReqNoPay : ReqT :=
  { rawHost := "client1.gate402.io", protocol := "http", originalUrl := "/data",
    method := "GET", path := "/data", ip := "1.2.3.4", headers := [] }

/-- An active gateway whose `evmAddress` is null (config invalid). -/
def misconfGw : Gateway :=
  { id := "gw-mc", subdomain := "client2", customDomain := none,
    originUrl := "http://origin2.example.com", evmAddress := none,
    secretToken := "sek2", defaultPricePerRequest := "0.1",
    paymentNetwork := some "eip155:84532", status := "active" }

/-- Store holding the misconfigured gateway. -/
def misconfSt : SysState := { db := [misconfGw], cache := [] }

/-- A header-less request aimed at the misconfigured gateway. -/
def misconfReq : ReqT :=
  { rawHost := "client2.gate402.io", protocol := "http", originalUrl := "/d",
    method := "GET", path := "/d", ip := "1.2.3.4", headers := [] }

/-- A gateway whose origin is the link-local metadata address. -/
def ssrfGw : Gateway :=
  { id := "gw-meta", subdomain := "metadata", customDomain := none,
    originUrl := "http://169.254.169.254/latest/meta-data", evmAddress := some "0xabc",
    secretToken := "sek", defaultPricePerRequest := "0.1",
    paymentNetwork := some "eip155:84532", status := "active" }

/-- Store holding the link-local gateway. -/
def ssrfSt : SysState := { db := [ssrfGw], cache := [] }

/-- Production-mode environment where the whole payment flow succeeds. -/
def prodPayEnv : PipelineEnv :=
  { production := true
    buildReq := Except.ok Json.null
    mkPaymentRequired := fun _ _ _ _ => Json.null
    decodePayment := fun _ => Except.ok Json.null
    facVerify := fun _ => Except.ok ⟨true, none⟩
    facSettle := fun _ => Except.ok ⟨true, "0xtx", "eip155:84532", none⟩ }

/-- A paying request aimed at the link-local gateway. -/
def ssrfReq : ReqT :=
  { rawHost := "metadata.gate402.io", protocol := "http", originalUrl := "/x",
    method := "GET", path := "/x", ip := "9.9.9.9",
    headers := [("payment-signature", "sig")] }

/-- A gateway whose origin is the loopback address `127.0.0.1`. -/
def loopbackGw : Gateway :=
  { id := "gw-admin", subdomain := "admin-api", customDomain := none,
    originUrl := "http://127.0.0.1/admin", evmAddress := some "0xabc",
    secretToken := "sek", defaultPricePerRequest := "0.1",
    paymentNetwork := some "eip155:84532", status := "active" }

/-- Store holding the loopback gateway. -/
def loopbackSt : SysState := { db := [loopbackGw], cache := [] }

/-- A paying request aimed at the loopback gateway. -/
def loopbackReq : ReqT :=
  { rawHost := "admin-api.gate402.io", protocol := "http", originalUrl := "/x",
    method := "GET", path := "/x", ip := "9.9.9.9",
    headers := [("payment-signature", "sig")] }

/-- A raw facilitator connection-failure message. -/
def settleMsgA : String := "connect ECONNREFUSED 10.0.0.5:443"

/-- A second raw facilitator message, differing from the first. -/
def settleMsgB : String := "connect ECONNREFUSED 10.9.9.9:443"

/-- Environment where the facilitator settlement call throws an `Error`
carrying `settleMsgA`. -/
def settleThrowEnvA : PipelineEnv :=
  { production := false
    buildReq := Except.ok Json.null
    mkPaymentRequired := fun _ _ _ _ => Json.null
    decodePayment := fun _ => Except.ok Json.null
    facVerify := fun _ => Except.ok ⟨true, none⟩
    facSettle := fun _ => Except.error (Exn.errObj settleMsgA) }

/-- The same environment with `settleMsgB` instead. -/
def settleThrowEnvB : PipelineEnv :=
  { production := false
    buildReq := Except.ok Json.null
    mkPaymentRequired := fun _ _ _ _ => Json.null
    decodePayment := fun _ => Except.ok Json.null
    facVerify := fun _ => Except.ok ⟨true, none⟩
    facSettle := fun _ => Except.error (Exn.errObj settleMsgB) }

/-- Environment where the facilitator reports the proof invalid. -/
def invalidVerifyEnv : PipelineEnv :=
  { production := false
    buildReq := Except.ok Json.null
    mkPaymentRequired := fun _ _ _ _ => Json.null
    decodePayment := fun _ => Except.ok Json.null
    facVerify := fun _ => Except.ok ⟨false, some "bad signature"⟩
    facSettle := fun _ => Except.ok ⟨true, "t", "n", none⟩ }

/-- The payment challenge the pipeline emits for `wGw` when no payment
header is present (under `invalidVerifyEnv`). -/
def chalResp : Resp :=
  { status := 402
    headers := [("PAYMENT-REQUIRED", base64encode (jsonStringify Json.null))]
    body := Body.json (Json.obj
      [("error", Json.str "Payment Required"),
       ("message", Json.str "This endpoint requires payment"),
       ("details", Json.obj
         [("price", Json.str "0.1"), ("network", Json.str "eip155:84532"),
          ("recipient", Json.str "0xabc")])]) }

/-- The response the pipeline emits when verification fails. -/
def invResp : Resp :=
  { status := 402, headers := []
    body := Body.json (Json.obj
      [("error", Json.str "Invalid Payment"), ("reason", Json.str "bad signature")]) }

/-! ## Helper lemmas -/

set_option maxRecDepth 8000

/-- Bridge between the integer floor of a dyadic pair and the rational
floor of its value. -/
theorem floorDy_eq_floor (d : ℤ × ℤ) : floorDy d = ⌊dyVal d⌋ := by
  obtain ⟨m, e⟩ := d
  unfold floorDy dyVal
  by_cases he : 0 ≤ e
  · obtain ⟨n, rfl⟩ : ∃ n : ℕ, e = (n : ℤ) := ⟨e.toNat, by omega⟩
    simp only [he, if_true, Int.toNat_natCast, zpow_natCast]
    rw [show ((m : ℚ) * (2 : ℚ) ^ n) = (((m * 2 ^ n : ℤ)) : ℚ) by push_cast; ring]
    exact (Int.floor_intCast _).symm
  · obtain ⟨k, rfl⟩ : ∃ k : ℕ, e = -(k : ℤ) := ⟨(-e).toNat, by omega⟩
    simp only [he, if_false, neg_neg, Int.toNat_natCast]
    rw [zpow_neg, zpow_natCast]
    rw [show (m : ℚ) * ((2 : ℚ) ^ k)⁻¹ = (m : ℚ) / (((2 ^ k : ℕ)) : ℚ) by push_cast; ring]
    rw [Rat.floor_intCast_div_natCast]
    push_cast
    rfl

/-- Exhaustive description of the payment phase: either there is no
(truthy) payment header and the phase answers a 402 challenge with no
events, or verification runs and the phase continues by its result. -/
theorem phasePayment_shape (env : PipelineEnv) (req : ReqT) (gw : Gateway) (reqs : Json) :
    (jsTruthyStr (effPaymentHeader req) = false ∧
      (phasePayment env req gw reqs).2 = [] ∧
      ∃ resp, (phasePayment env req gw reqs).1 = Outcome.direct resp ∧ resp.status = 402) ∨
    (jsTruthyStr (effPaymentHeader req) = true ∧
      ((∃ e, verifyPayment (env.decodePayment ((effPaymentHeader req).getD "")) env.facVerify
            = Except.error e ∧
          (phasePayment env req gw reqs).2 = [Ev.verifyCalled] ∧
          (phasePayment env req gw reqs).1 = Outcome.thrown e) ∨
       (∃ r, verifyPayment (env.decodePayment ((effPaymentHeader req).getD "")) env.facVerify
            = Except.ok r ∧ r.isValid = false ∧
          (phasePayment env req gw reqs).2 = [Ev.verifyCalled] ∧
          ∃ resp, (phasePayment env req gw reqs).1 = Outcome.direct resp ∧ resp.status = 402) ∨
       (∃ r, verifyPayment (env.decodePayment ((effPaymentHeader req).getD "")) env.facVerify
            = Except.ok r ∧ r.isValid = true ∧
          ((∃ e, env.facSettle (r.paymentPayload.getD Json.null) = Except.error e ∧
             (phasePayment env req gw reqs).2 = [Ev.verifyCalled, Ev.settleCalled] ∧
             ∃ resp, (phasePayment env req gw reqs).1 = Outcome.direct resp ∧ resp.status = 502) ∨
           (∃ s, env.facSettle (r.paymentPayload.getD Json.null) = Except.ok s ∧ s.success = false ∧
             (phasePayment env req gw reqs).2 = [Ev.verifyCalled, Ev.settleCalled] ∧
             ∃ resp, (phasePayment env req gw reqs).1 = Outcome.direct resp ∧ resp.status = 502) ∨
           (∃ s, env.facSettle (r.paymentPayload.getD Json.null) = Except.ok s ∧ s.success = true ∧
             (phasePayment env req gw reqs).2
               = [Ev.verifyCalled, Ev.settleCalled, Ev.forwardCalled] ∧
             (phasePayment env req gw reqs).1
               = Outcome.proxied gw.originUrl
                   [("PAYMENT-RESPONSE", base64encode (jsonStringify (settleResultJson s)))])))))
    := by
  cases hph : jsTruthyStr (effPaymentHeader req) with
  | false =>
    left
    refine ⟨rfl, by simp [phasePayment, hph], ?_⟩
    simp only [phasePayment, hph]
    exact ⟨_, rfl, rfl⟩
  | true =>
    right
    refine ⟨rfl, ?_⟩
    cases hv : verifyPayment (env.decodePayment ((effPaymentHeader req).getD "")) env.facVerify with
    | error e =>
      left
      exact ⟨e, rfl, by simp [phasePayment, hph, hv], by simp [phasePayment, hph, hv]⟩
    | ok vres =>
      cases hvv : vres.isValid with
      | false =>
        right; left
        refine ⟨vres, rfl, hvv, by simp [phasePayment, hph, hv, hvv], ?_⟩
        simp only [phasePayment, hph, hv, hvv]
        exact ⟨_, rfl, rfl⟩
      | true =>
        right; right
        refine ⟨vres, rfl, hvv, ?_⟩
        cases hs : env.facSettle (vres.paymentPayload.getD Json.null) with
        | error e =>
          left
          refine ⟨e, rfl, by simp [phasePayment, hph, hv, hvv, hs], ?_⟩
          simp only [phasePayment, hph, hv, hvv, hs]
          exact ⟨_, rfl, rfl⟩
        | ok sres =>
          cases hss : sres.success with
          | false =>
            right; left
            refine ⟨sres, rfl, hss, by simp [phasePayment, hph, hv, hvv, hs, hss], ?_⟩
            simp only [phasePayment, hph, hv, hvv, hs, hss]
            exact ⟨_, rfl, rfl⟩
          | true =>
            right; right
            exact ⟨sres, rfl, hss, by simp [phasePayment, hph, hv, hvv, hs, hss],
                   by simp [phasePayment, hph, hv, hvv, hs, hss]⟩

/-- Exhaustive description of the pipeline prefix: every request either
ends in a 404/500/403 before the payment phase, with no protocol events,
or reaches the payment phase with a resolved gateway and built
requirements. -/
theorem handleRequest_shape (st : SysState) (env : PipelineEnv) (req : ReqT) :
    ((handleRequest st env req).2 = [] ∧
      ∃ resp, (handleRequest st env req).1 = Outcome.direct resp ∧
        (resp.status = 404 ∨ resp.status = 500 ∨ resp.status = 403)) ∨
    (∃ gw reqs,
      (resolveGateway st (stripPort req.rawHost)).1 = some gw ∧
      env.buildReq = Except.ok reqs ∧
      handleRequest st env req = phasePayment env req gw reqs) := by
  cases hres : (resolveGateway st (stripPort req.rawHost)).1 with
  | none =>
    left
    refine ⟨by simp [handleRequest, hres], ?_⟩
    simp only [handleRequest, hres]
    exact ⟨_, rfl, Or.inl rfl⟩
  | some gw =>
    cases hcfg : configInvalid gw with
    | true =>
      left
      refine ⟨by simp [handleRequest, phaseAfterResolve, hres, hcfg], ?_⟩
      simp only [handleRequest, phaseAfterResolve, hres, hcfg, if_true]
      exact ⟨_, rfl, Or.inr (Or.inl rfl)⟩
    | false =>
      cases hurl : parseUrlHost gw.originUrl with
      | none =>
        left
        refine ⟨by simp [handleRequest, phaseAfterResolve, hres, hcfg, hurl], ?_⟩
        simp only [handleRequest, phaseAfterResolve, hres, hcfg, hurl, Bool.false_eq_true,
          if_false]
        exact ⟨_, rfl, Or.inr (Or.inl rfl)⟩
      | some hn =>
        cases hb : (env.production && ssrfBlocked hn) with
        | true =>
          left
          refine ⟨by simp [handleRequest, phaseAfterResolve, hres, hcfg, hurl, hb], ?_⟩
          simp only [handleRequest, phaseAfterResolve, hres, hcfg, hurl, hb,
            Bool.false_eq_true, if_false, if_true]
          exact ⟨_, rfl, Or.inr (Or.inr rfl)⟩
        | false =>
          cases hbr : env.buildReq with
          | error e =>
            left
            refine ⟨by simp [handleRequest, phaseAfterResolve, hres, hcfg, hurl, hb, hbr], ?_⟩
            simp only [handleRequest, phaseAfterResolve, hres, hcfg, hurl, hb, hbr,
              Bool.false_eq_true, if_false]
            exact ⟨_, rfl, Or.inr (Or.inl rfl)⟩
          | ok reqs =>
            right
            refine ⟨gw, reqs, rfl, rfl, ?_⟩
            simp [handleRequest, phaseAfterResolve, hres, hcfg, hurl, hb, hbr]

/-! ## The claims -/

/-- Claim C1: for every request handled by the pipeline, the protocol
phases are strictly sequential: settlement is attempted only when
verification returned `isValid = true` for that request; the forward to
the origin occurs only when settlement succeeded; a request whose proof
fails verification is answered 402 and never reaches settlement or the
forwarder; and a request that invoked settlement but was not forwarded
is answered 502. -/
theorem claim1_phase_ordering (st : SysState) (env : PipelineEnv) (req : ReqT) :
    (Ev.settleCalled ∈ (handleRequest st env req).2 →
      ∃ r, verifyPayment (env.decodePayment ((effPaymentHeader req).getD ""))
          env.facVerify = Except.ok r ∧ r.isValid = true) ∧
    (Ev.forwardCalled ∈ (handleRequest st env req).2 →
      Ev.settleCalled ∈ (handleRequest st env req).2 ∧
      (∃ p s, env.facSettle p = Except.ok s ∧ s.success = true) ∧
      ∃ t hs, (handleRequest st env req).1 = Outcome.proxied t hs) ∧
    (∀ r, Ev.verifyCalled ∈ (handleRequest st env req).2 →
      verifyPayment (env.decodePayment ((effPaymentHeader req).getD ""))
          env.facVerify = Except.ok r →
      r.isValid = false →
      Ev.settleCalled ∉ (handleRequest st env req).2 ∧
      Ev.forwardCalled ∉ (handleRequest st env req).2 ∧
      ∃ resp, (handleRequest st env req).1 = Outcome.direct resp ∧ resp.status = 402) ∧
    (∀ resp, (handleRequest st env req).1 = Outcome.direct resp →
      Ev.settleCalled ∈ (handleRequest st env req).2 →
      resp.status = 502 ∧ Ev.forwardCalled ∉ (handleRequest st env req).2) := by
  rcases handleRequest_shape st env req with ⟨hev, _, _, _⟩ | ⟨gw, reqs, _, _, heq⟩
  · rw [hev]
    refine ⟨?_, ?_, ?_, ?_⟩
    · intro h; exact absurd h (by simp)
    · intro h; exact absurd h (by simp)
    · intro r h; exact absurd h (by simp)
    · intro resp _ h; exact absurd h (by simp)
  · rw [heq]
    rcases phasePayment_shape env req gw reqs with
      ⟨_, hev, _⟩ |
      ⟨_, ⟨e, hv, hev, hout⟩ |
         ⟨r, hv, hinv, hev, resp, hout, hstat⟩ |
         ⟨r, hv, hval, ⟨e, hs, hev, resp, hout, hstat⟩ |
            ⟨s, hs, hfail, hev, resp, hout, hstat⟩ |
            ⟨s, hs, hsucc, hev, hout⟩⟩⟩
    · rw [hev]
      refine ⟨?_, ?_, ?_, ?_⟩
      · intro h; exact absurd h (by simp)
      · intro h; exact absurd h (by simp)
      · intro r h; exact absurd h (by simp)
      · intro rsp _ h; exact absurd h (by simp)
    · rw [hev]
      refine ⟨?_, ?_, ?_, ?_⟩
      · intro h; exact absurd h (by simp)
      · intro h; exact absurd h (by simp)
      · intro r _ hok; rw [hv] at hok; exact absurd hok (by simp)
      · intro rsp hr; rw [hout] at hr; exact absurd hr (by simp)
    · rw [hev]
      refine ⟨?_, ?_, ?_, ?_⟩
      · intro h; exact absurd h (by simp)
      · intro h; exact absurd h (by simp)
      · intro r' _ hok _
        exact ⟨by simp, by simp, resp, hout, hstat⟩
      · intro rsp _ h; exact absurd h (by simp)
    · rw [hev]
      refine ⟨?_, ?_, ?_, ?_⟩
      · intro _; exact ⟨r, hv, hval⟩
      · intro h; exact absurd h (by simp)
      · intro r' _ hok hinv'
        rw [hv] at hok
        injection hok with h
        subst h
        rw [hval] at hinv'
        exact absurd hinv' (by simp)
      · intro rsp hr _
        rw [hout] at hr
        injection hr with h
        subst h
        exact ⟨hstat, by simp⟩
    · rw [hev]
      refine ⟨?_, ?_, ?_, ?_⟩
      · intro _; exact ⟨r, hv, hval⟩
      · intro h; exact absurd h (by simp)
      · intro r' _ hok hinv'
        rw [hv] at hok
        injection hok with h
        subst h
        rw [hval] at hinv'
        exact absurd hinv' (by simp)
      · intro rsp hr _
        rw [hout] at hr
        injection hr with h
        subst h
        exact ⟨hstat, by simp⟩
    · rw [hev]
      refine ⟨?_, ?_, ?_, ?_⟩
      · intro _; exact ⟨r, hv, hval⟩
      · intro _
        refine ⟨by simp, ⟨_, s, hs, hsucc⟩, _, _, hout⟩
      · intro r' _ hok hinv'
        rw [hv] at hok
        injection hok with h
        subst h
        rw [hval] at hinv'
        exact absurd hinv' (by simp)
      · intro rsp hr
        rw [hout] at hr
        exact absurd hr (by simp)

/-- Claim C1 witness: on the concrete settle-rejected run, the response
has status 502 and the forwarder is never invoked. -/
theorem claim1_phase_ordering_witness :
    ∃ resp, (handleRequest wSt settleRejectEnv wReqPay).1 = Outcome.direct resp ∧
      resp.status = 502 ∧
      Ev.forwardCalled ∉ (handleRequest wSt settleRejectEnv wReqPay).2 := by
  have hr : (handleRequest wSt settleRejectEnv wReqPay).1 = Outcome.direct
      { status := 502, headers := []
        body := Body.json (Json.obj
          [("error", Json.str "Payment settlement failed"),
           ("details", settleResultJson ⟨false, "", "", some "rejected"⟩)]) } := rfl
  have hm : Ev.settleCalled ∈ (handleRequest wSt settleRejectEnv wReqPay).2 := by decide
  obtain ⟨hstat, hnf⟩ := (claim1_phase_ordering wSt settleRejectEnv wReqPay).2.2.2 _ hr hm
  exact ⟨_, hr, hstat, hnf⟩

/-- Claim C2 (amended): a request with no truthy payment header never
invokes the forwarder; and when it additionally resolves to a gateway
that passes the configuration and SSRF checks and requirements build
succeeds, the response is a 402 whose `PAYMENT-REQUIRED` header is the
base64-encoded JSON of the payment-required structure, with a JSON
body. -/
theorem claim2_no_payment_challenge (st : SysState) (env : PipelineEnv) (req : ReqT) :
    (jsTruthyStr (effPaymentHeader req) = false →
      Ev.forwardCalled ∉ (handleRequest st env req).2 ∧
      ∀ t hs, (handleRequest st env req).1 ≠ Outcome.proxied t hs) ∧
    (∀ gw reqs hn,
      (resolveGateway st (stripPort req.rawHost)).1 = some gw →
      configInvalid gw = false →
      parseUrlHost gw.originUrl = some hn →
      (env.production && ssrfBlocked hn) = false →
      env.buildReq = Except.ok reqs →
      jsTruthyStr (effPaymentHeader req) = false →
      (handleRequest st env req).1 = Outcome.direct
        { status := 402
          headers := [("PAYMENT-REQUIRED", base64encode (jsonStringify
            (env.mkPaymentRequired reqs
              (req.protocol ++ "://" ++ req.rawHost ++ req.originalUrl)
              gw.subdomain "application/json")))]
          body := Body.json (Json.obj
            [("error", Json.str "Payment Required"),
             ("message", Json.str "This endpoint requires payment"),
             ("details", Json.obj
               [("price", Json.str gw.defaultPricePerRequest),
                ("network", Json.str (jsOrStr gw.paymentNetwork "eip155:84532")),
                ("recipient", Json.str (gw.evmAddress.getD ""))])]) }) := by
  constructor
  · intro hph
    rcases handleRequest_shape st env req with ⟨hev, resp, hout, _⟩ | ⟨gw, reqs, _, _, heq⟩
    · rw [hev, hout]
      exact ⟨by simp, by intro t hs h; exact Outcome.noConfusion h⟩
    · rw [heq]
      rcases phasePayment_shape env req gw reqs with
        ⟨_, hev, resp, hout, _⟩ |
        ⟨htr, _⟩
      · rw [hev, hout]
        exact ⟨by simp, by intro t hs h; exact Outcome.noConfusion h⟩
      · rw [hph] at htr
        exact absurd htr (by simp)
  · intro gw reqs hn hres hcfg hurl hb hbr hph
    simp [handleRequest, phaseAfterResolve, phasePayment, hres, hcfg, hurl, hb, hbr, hph]

/-- Claim C2 witness: the concrete header-less request yields exactly
the 402 challenge with the `PAYMENT-REQUIRED` header, and no forward. -/
theorem claim2_no_payment_challenge_witness :
    (handleRequest wSt settleRejectEnv wReqNoPay).1 = Outcome.direct
      { status := 402
        headers := [("PAYMENT-REQUIRED", base64encode (jsonStringify
          (settleRejectEnv.mkPaymentRequired Json.null
            (wReqNoPay.protocol ++ "://" ++ wReqNoPay.rawHost ++ wReqNoPay.originalUrl)
            wGw.subdomain "application/json")))]
        body := Body.json (Json.obj
          [("error", Json.str "Payment Required"),
           ("message", Json.str "This endpoint requires payment"),
           ("details", Json.obj
             [("price", Json.str wGw.defaultPricePerRequest),
              ("network", Json.str (jsOrStr wGw.paymentNetwork "eip155:84532")),
              ("recipient", Json.str (wGw.evmAddress.getD ""))])]) } ∧
    Ev.forwardCalled ∉ (handleRequest wSt settleRejectEnv wReqNoPay).2 := by
  constructor
  · exact (claim2_no_payment_challenge wSt settleRejectEnv wReqNoPay).2 wGw Json.null
      "origin.example.com" (by decide) (by decide) (by decide) (by decide) rfl (by decide)
  · exact ((claim2_no_payment_challenge wSt settleRejectEnv wReqNoPay).1 (by decide)).1

/-- Claim C2 counterexample: an active gateway with a null `evmAddress`
and no payment header is answered 500 (`Gateway misconfiguration`), not
402, so the original claim's "always responds with status 402" fails. -/
theorem claim2_counterexample :
    (resolveGateway misconfSt "client2.gate402.io").1 = some misconfGw ∧
    misconfGw.status = "active" ∧
    effPaymentHeader misconfReq = none ∧
    (handleRequest misconfSt settleRejectEnv misconfReq).1 = Outcome.direct
      { status := 500, headers := []
        body := Body.json (Json.obj [("error", Json.str "Gateway misconfiguration")]) } ∧
    (500 : Nat) ≠ 402 :=
  ⟨by decide, by decide, by decide, rfl, by decide⟩

/-- Claim C3 (amended): `verifyPayment` fails closed — whatever the
decode result and the facilitator behaviour, it resolves (never throws)
and on any decode error or facilitator-thrown error it yields
`isValid = false` with a reason string, namely the thrown `Error`'s own
message (possibly empty) or a fixed default for non-`Error` values. -/
theorem claim3_verify_fails_closed (decoded : Except Exn Json)
    (fac : Json → Except Exn FacVerifyResult) :
    ∃ r, verifyPayment decoded fac = Except.ok r ∧
      (∀ e, decoded = Except.error e →
        r.isValid = false ∧ r.invalidReason = some (exnVerifyReason e)) ∧
      (∀ p e, decoded = Except.ok p → fac p = Except.error e →
        r.isValid = false ∧ r.invalidReason = some (exnVerifyReason e)) := by
  cases decoded with
  | error e =>
    refine ⟨⟨false, some (exnVerifyReason e), none⟩, rfl, ?_, ?_⟩
    · intro e' he
      injection he with h
      subst h
      exact ⟨rfl, rfl⟩
    · intro p e' hp
      exact Except.noConfusion hp
  | ok p =>
    cases hf : fac p with
    | error e =>
      refine ⟨⟨false, some (exnVerifyReason e), none⟩, ?_, ?_, ?_⟩
      · unfold verifyPayment verifyPaymentBody
        simp only [hf]
      · intro e' he
        exact Except.noConfusion he
      · intro p' e' hp hf'
        injection hp with h
        subst h
        rw [hf] at hf'
        injection hf' with h2
        subst h2
        exact ⟨rfl, rfl⟩
    | ok vr =>
      refine ⟨⟨vr.isValid, vr.invalidReason, if vr.isValid then some p else none⟩, ?_, ?_, ?_⟩
      · unfold verifyPayment verifyPaymentBody
        simp only [hf]
      · intro e' he
        exact Except.noConfusion he
      · intro p' e' hp hf'
        injection hp with h
        subst h
        rw [hf] at hf'
        exact Except.noConfusion hf'

/-- Claim C3 witness: on a concrete decode failure the result is
`isValid = false` with the thrown message as reason. -/
theorem claim3_verify_fails_closed_witness :
    ∃ r, verifyPayment (Except.error (Exn.errObj "boom"))
        (fun _ => Except.ok ⟨true, none⟩) = Except.ok r ∧
      r.isValid = false ∧ r.invalidReason = some "boom" := by
  obtain ⟨r, h1, h2, _⟩ := claim3_verify_fails_closed (Except.error (Exn.errObj "boom"))
    (fun _ => Except.ok ⟨true, none⟩)
  obtain ⟨hv, hr⟩ := h2 (Exn.errObj "boom") rfl
  exact ⟨r, h1, hv, hr⟩

/-- Claim C3 counterexample: when the facilitator throws an `Error`
whose message is the empty string, the reason string is empty — the
original claim's "non-empty reason string" fails. -/
theorem claim3_counterexample :
    verifyPayment (Except.ok Json.null) (fun _ => Except.error (Exn.errObj ""))
      = Except.ok ⟨false, some "", none⟩ ∧
    ("" : String).length = 0 :=
  ⟨rfl, rfl⟩

/-- Claim C4: after a resolution of `client1.gate402.io` cached the
active gateway under the full-host key, pausing the gateway purges only
the `gateway:client1` (label) key, so the next resolution of the same
host still returns the stale `active` snapshot instead of NotFound —
the code violates the claim. -/
theorem claim4_stale_cache_serves_paused :
    (resolveGateway cbState2 "client1.gate402.io").1 = some cbGw ∧
    cbGw.status = "active" ∧
    (cbState2.db.find? (fun g => g.id = "g1")).map Gateway.status = some "paused" ∧
    cacheGet cbState2.cache "gateway:client1" = none :=
  ⟨by decide, by decide, by decide, by decide⟩

/-- Claim C5: updating the gateway's origin URL deletes the
`gateway:client1` key but the resolution cache key is the full host
`gateway:client1.gate402.io`, so the very next resolution still serves
the pre-update record — the code violates the claim. -/
theorem claim5_invalidation_misses_host_key :
    (resolveGateway cb5State2 "client1.gate402.io").1 = some cbGw ∧
    cbGw.originUrl = "http://origin.example.com" ∧
    (cb5State2.db.find? (fun g => g.id = "g1")).map Gateway.originUrl
      = some "http://new-origin.example.com" ∧
    cacheGet cb5State2.cache "gateway:client1" = none ∧
    cacheGet cb5State2.cache "gateway:client1.gate402.io" = some cbGw :=
  ⟨by decide, by decide, by decide, by decide, by decide⟩

/-- Claim C6: in production mode the link-local origin
`169.254.169.254` is not matched by the SSRF block list, so a paying
request is forwarded to it — the code violates the claim; the loopback
literal `127.0.0.1` is blocked with a 403 and no forward, as the
specification's Scenario D expects. -/
theorem claim6_linklocal_bypasses_ssrf_guard :
    parseUrlHost "http://169.254.169.254/latest/meta-data" = some "169.254.169.254" ∧
    ssrfBlocked "169.254.169.254" = false ∧
    (handleRequest ssrfSt prodPayEnv ssrfReq).1
      = Outcome.proxied "http://169.254.169.254/latest/meta-data"
          [("PAYMENT-RESPONSE", base64encode (jsonStringify
            (settleResultJson ⟨true, "0xtx", "eip155:84532", none⟩)))] ∧
    Ev.forwardCalled ∈ (handleRequest ssrfSt prodPayEnv ssrfReq).2 ∧
    ssrfBlocked "127.0.0.1" = true ∧
    (handleRequest loopbackSt prodPayEnv loopbackReq).1 = Outcome.direct
      { status := 403, headers := []
        body := Body.json (Json.obj [("error", Json.str "Invalid origin URL")]) } ∧
    Ev.forwardCalled ∉ (handleRequest loopbackSt prodPayEnv loopbackReq).2 :=
  ⟨by decide, by decide, rfl, by decide, by decide, rfl, by decide⟩

/-- Claim C7: when the facilitator settlement call throws, the 502 body
carries the raw exception message verbatim in its `details` field, and
varying only that message changes the client-visible response — the
code violates the claim. -/
theorem claim7_raw_facilitator_error_leaks :
    (handleRequest wSt settleThrowEnvA wReqPay).1 = Outcome.direct
      { status := 502, headers := []
        body := Body.json (Json.obj
          [("error", Json.str "Payment settlement failed"),
           ("details", Json.str settleMsgA)]) } ∧
    (handleRequest wSt settleThrowEnvB wReqPay).1 = Outcome.direct
      { status := 502, headers := []
        body := Body.json (Json.obj
          [("error", Json.str "Payment settlement failed"),
           ("details", Json.str settleMsgB)]) } ∧
    settleMsgA ≠ settleMsgB :=
  ⟨rfl, rfl, by decide⟩

/-- Claim C8 (amended): the integer amount is the floor of the IEEE-754
binary64 evaluation of `price × 10^decimals`; whenever the price, the
power of ten, and the product are exactly representable this equals the
exact rational `floor(price × 10^decimals)`, but not in general: price
`0.29` with 2 decimals yields 28 while the exact floor is 29. -/
theorem claim8_amount_binary64 :
    (∀ (a : ℤ) (b d : ℕ), 0 < b →
      dyVal (fl64 ⟨a, (b : ℤ)⟩) = (a : ℚ) / (b : ℚ) →
      dyVal (fl64 ⟨(10 : ℤ) ^ d, 1⟩) = (10 : ℚ) ^ d →
      dyVal (fl64 (fracMul (dyToFrac (fl64 ⟨a, (b : ℤ)⟩))
          (dyToFrac (fl64 ⟨(10 : ℤ) ^ d, 1⟩)))) =
        dyVal (fl64 ⟨a, (b : ℤ)⟩) * dyVal (fl64 ⟨(10 : ℤ) ^ d, 1⟩) →
      buildRequirementAmount a b d = specAmount ((a : ℚ) / (b : ℚ)) d) ∧
    buildRequirementAmount 29 100 2 = 28 ∧
    specAmount ((29 : ℚ) / 100) 2 = 29 := by
  refine ⟨?_, by decide, ?_⟩
  · intro a b d hb h1 h2 h3
    unfold buildRequirementAmount specAmount
    rw [floorDy_eq_floor, h3, h1, h2]
  · unfold specAmount
    rw [show ((29 : ℚ) / 100) * (10 : ℚ) ^ 2 = ((29 : ℤ) : ℚ) by norm_num]
    exact Int.floor_intCast _

/-- Claim C8 witness: for the exactly representable price `0.5` with one
decimal, the computed amount equals the exact floor (5). -/
theorem claim8_amount_binary64_witness :
    0 < (2 : ℕ) ∧
    buildRequirementAmount 1 2 1 = specAmount (((1 : ℤ) : ℚ) / ((2 : ℕ) : ℚ)) 1 := by
  refine ⟨by decide, ?_⟩
  have hp : fl64 ⟨1, ((2 : ℕ) : ℤ)⟩ = (2 ^ 52, -53) := by decide
  have hw : fl64 ⟨(10 : ℤ) ^ 1, 1⟩ = (5 * 2 ^ 50, -49) := by decide
  have hm : fl64 (fracMul (dyToFrac (fl64 ⟨1, ((2 : ℕ) : ℤ)⟩))
      (dyToFrac (fl64 ⟨(10 : ℤ) ^ 1, 1⟩))) = (5 * 2 ^ 50, -50) := by decide
  refine claim8_amount_binary64.1 1 2 1 (by decide) ?_ ?_ ?_
  · rw [hp]; unfold dyVal; norm_num
  · rw [hw]; unfold dyVal; norm_num
  · rw [hm, hp, hw]; unfold dyVal; norm_num

/-- Claim C8 counterexample: for price `0.29` (a parseable decimal) and
2 decimals the computed amount is 28, but the exact rational floor is 29
— the original claim's equality fails. -/
theorem claim8_counterexample :
    buildRequirementAmount 29 100 2 ≠ specAmount ((29 : ℚ) / 100) 2 := by
  have h1 : buildRequirementAmount 29 100 2 = 28 := by decide
  have h2 : specAmount ((29 : ℚ) / 100) 2 = 29 := by
    unfold specAmount
    rw [show ((29 : ℚ) / 100) * (10 : ℚ) ^ 2 = ((29 : ℤ) : ℚ) by norm_num]
    exact Int.floor_intCast _
  rw [h1, h2]
  decide

/-- Claim C9 (amended): both challenge paths answer 402 with a JSON
body, but the responses are not structurally identical: the
no-payment-header path carries the `PAYMENT-REQUIRED` header and a body
with fields error/message/details, while the failed-verification path
has no requirement header and a body with fields error/reason — so the
cause of the challenge is distinguishable from the structure. -/
theorem claim9_challenge_shapes (st : SysState) (env : PipelineEnv) (req : ReqT) :
    (∀ gw reqs hn,
      (resolveGateway st (stripPort req.rawHost)).1 = some gw →
      configInvalid gw = false →
      parseUrlHost gw.originUrl = some hn →
      (env.production && ssrfBlocked hn) = false →
      env.buildReq = Except.ok reqs →
      jsTruthyStr (effPaymentHeader req) = false →
      ∃ resp, (handleRequest st env req).1 = Outcome.direct resp ∧
        resp.status = 402 ∧
        resp.headers.map Prod.fst = ["PAYMENT-REQUIRED"] ∧
        bodyTopKeys resp.body = ["error", "message", "details"]) ∧
    (∀ gw reqs hn r,
      (resolveGateway st (stripPort req.rawHost)).1 = some gw →
      configInvalid gw = false →
      parseUrlHost gw.originUrl = some hn →
      (env.production && ssrfBlocked hn) = false →
      env.buildReq = Except.ok reqs →
      jsTruthyStr (effPaymentHeader req) = true →
      verifyPayment (env.decodePayment ((effPaymentHeader req).getD "")) env.facVerify
        = Except.ok r →
      r.isValid = false →
      ∃ resp, (handleRequest st env req).1 = Outcome.direct resp ∧
        resp.status = 402 ∧
        resp.headers = [] ∧
        bodyTopKeys resp.body = ["error", "reason"]) := by
  constructor
  · intro gw reqs hn hres hcfg hurl hb hbr hph
    simp only [handleRequest, phaseAfterResolve, phasePayment, hres, hcfg, hurl, hb, hbr, hph,
      Bool.false_eq_true, if_false, if_true]
    exact ⟨_, rfl, rfl, rfl, rfl⟩
  · intro gw reqs hn r hres hcfg hurl hb hbr hph hv hinv
    simp only [handleRequest, phaseAfterResolve, phasePayment, hres, hcfg, hurl, hb, hbr, hph,
      hv, hinv, Bool.false_eq_true, if_false, if_true]
    exact ⟨_, rfl, rfl, rfl, rfl⟩

/-- Claim C9 witness: both concrete challenge runs produce a 402, with
the structural differences stated by the amended claim. -/
theorem claim9_challenge_shapes_witness :
    (∃ resp, (handleRequest wSt invalidVerifyEnv wReqNoPay).1 = Outcome.direct resp ∧
      resp.status = 402 ∧
      resp.headers.map Prod.fst = ["PAYMENT-REQUIRED"] ∧
      bodyTopKeys resp.body = ["error", "message", "details"]) ∧
    (∃ resp, (handleRequest wSt invalidVerifyEnv wReqPay).1 = Outcome.direct resp ∧
      resp.status = 402 ∧
      resp.headers = [] ∧
      bodyTopKeys resp.body = ["error", "reason"]) := by
  constructor
  · exact (claim9_challenge_shapes wSt invalidVerifyEnv wReqNoPay).1 wGw Json.null
      "origin.example.com" (by decide) (by decide) (by decide) (by decide) rfl (by decide)
  · exact (claim9_challenge_shapes wSt invalidVerifyEnv wReqPay).2 wGw Json.null
      "origin.example.com" ⟨false, some "bad signature", none⟩
      (by decide) (by decide) (by decide) (by decide) rfl (by decide) rfl rfl

/-- Claim C9 counterexample: on the same gateway and environment, the
no-header challenge carries the `PAYMENT-REQUIRED` header and an
error/message/details body while the invalid-proof 402 has no headers
and an error/reason body — the responses are not structurally
identical. -/
theorem claim9_counterexample :
    (handleRequest wSt invalidVerifyEnv wReqNoPay).1 = Outcome.direct chalResp ∧
    (handleRequest wSt invalidVerifyEnv wReqPay).1 = Outcome.direct invResp ∧
    chalResp.status = 402 ∧ invResp.status = 402 ∧
    chalResp.headers.map Prod.fst = ["PAYMENT-REQUIRED"] ∧
    invResp.headers.map Prod.fst = ([] : List String) ∧
    bodyTopKeys chalResp.body = ["error", "message", "details"] ∧
    bodyTopKeys invResp.body = ["error", "reason"] :=
  ⟨rfl, rfl, rfl, rfl, by decide, by decide, by decide, by decide⟩

/-- Claim C10: for every host that does not contain `localhost` and has
more than two dot-separated labels, `extractSubdomain` returns the first
label (never null), whether or not the host is under the platform root
domain; consequently `resolveGateway` on the registered custom domain
`api.weatherpro.com` returns the gateway with subdomain `api` instead of
the custom-domain gateway. -/
theorem claim10_subdomain_shadows_custom_domain :
    (∀ h : String, strContains h "localhost" = false →
      2 < (jsSplit h '.').length →
      extractSubdomain h = some ((jsSplit h '.').headD "")) ∧
    (resolveGateway shadowState "api.weatherpro.com").1 = some subGw ∧
    customGw.customDomain = some "api.weatherpro.com" ∧
    subGw.id ≠ customGw.id := by
  refine ⟨?_, by decide, by decide, by decide⟩
  intro h hc hl
  unfold extractSubdomain
  rw [if_neg (by simp [hc]), if_pos hl]

/-- Claim C10 witness: the hypotheses hold for `api.weatherpro.com`,
whose extracted subdomain is `api`. -/
theorem claim10_subdomain_shadows_custom_domain_witness :
    strContains "api.weatherpro.com" "localhost" = false ∧
    2 < (jsSplit "api.weatherpro.com" '.').length ∧
    extractSubdomain "api.weatherpro.com" = some "api" := by
  refine ⟨by decide, by decide, ?_⟩
  rw [claim10_subdomain_shadows_custom_domain.1 "api.weatherpro.com" (by decide) (by decide)]
  decide

end Gate402
